import Mathlib

/-!
Shallow embedding of `src/VectorD.mjs` (class `Vector2D`) from the
js-vectors repository.

Modelling conventions:
* A JavaScript number held in a `Float32Array` slot is modelled as an exact
  rational or NaN (`JSNum`); float32 rounding is abstracted away, values are
  kept exact.
* A JavaScript value that can be passed as an argument is `JSVal`
  (undefined, number, string, array, or a `Vector2D` instance, the latter
  identified by its coordinate buffer, which is all `parse` reads from it).
* Reading an out-of-range index of a `Float32Array` yields `undefined`,
  as in JavaScript (`F32x2.get`).
* Methods that can throw return `Except JSErr _`; a thrown `TypeError`
  is `JSErr.typeError msg`.
* `this.history` is never assigned by the constructor in the source, so the
  state field `history` is an `Option`, `none` meaning the field is still
  `undefined`.
-/

/-- A JavaScript number: an exact rational, or NaN.  (Float32 rounding of
stores into the `Float32Array` is abstracted away; infinities do not arise
in any modelled computation.) -/
inductive JSNum where
  | num (q : ℚ)
  | nan
deriving DecidableEq, Repr

namespace JSNum

/-- JS `+` on numbers: NaN propagates. -/
def add : JSNum → JSNum → JSNum
  | num a, num b => num (a + b)
  | _, _ => nan

/-- JS `-` on numbers: NaN propagates. -/
def sub : JSNum → JSNum → JSNum
  | num a, num b => num (a - b)
  | _, _ => nan

/-- JS `*` on numbers: NaN propagates. -/
def mul : JSNum → JSNum → JSNum
  | num a, num b => num (a * b)
  | _, _ => nan

/-- JS unary `-` on a number: NaN propagates. -/
def neg : JSNum → JSNum
  | num a => num (-a)
  | nan => nan

/-- JS strict inequality `!==` between two numbers: `NaN !== NaN` is true. -/
def neq : JSNum → JSNum → Bool
  | num a, num b => decide (a ≠ b)
  | _, _ => true

end JSNum

/-- `Math.min` on two numbers: NaN if either operand is NaN. -/
def mathMin : JSNum → JSNum → JSNum
  | .num a, .num b => .num (min a b)
  | _, _ => .nan

/-- `Math.max` on two numbers: NaN if either operand is NaN. -/
def mathMax : JSNum → JSNum → JSNum
  | .num a, .num b => .num (max a b)
  | _, _ => .nan

/-- The numeric value of a list of decimal digit characters
(`none` when a non-digit occurs; `some 0` on the empty list). -/
def natOfDigits (cs : List Char) : Option ℕ :=
  cs.foldl
    (fun acc c => acc.bind fun n =>
      if c.isDigit then some (10 * n + (c.toNat - 48)) else none)
    (some 0)

/-- Value of an unsigned decimal literal: digits, optionally with one
decimal point (`"5"`, `"5."`, `".5"`, `"5.25"`); `none` otherwise. -/
def decOfChars (cs : List Char) : Option ℚ :=
  let ip := cs.takeWhile (fun c => c ≠ '.')
  let rest := cs.dropWhile (fun c => c ≠ '.')
  match rest with
  | [] => if ip.isEmpty then none else (natOfDigits ip).map (fun n => (n : ℚ))
  | _ :: fp =>
    if fp.any (fun c => c = '.') then none
    else if ip.isEmpty && fp.isEmpty then none
    else
      (natOfDigits ip).bind fun i =>
        (natOfDigits fp).map fun f =>
          (i : ℚ) + (f : ℚ) / ((10 : ℚ) ^ fp.length)

/-- JS `ToNumber` of a string: trimmed empty string is `0`, an optionally
signed decimal literal is its value, anything else is NaN.  (Hex and
exponent forms, and whitespace other than spaces, are not modelled; no
modelled computation uses them.) -/
def strToNum (s : String) : JSNum :=
  let t := ((s.data.dropWhile (fun c => c = ' ')).reverse.dropWhile
    (fun c => c = ' ')).reverse
  if t.isEmpty then .num 0
  else
    match t with
    | '-' :: cs =>
      match decOfChars cs with
      | some q => .num (-q)
      | none => .nan
    | '+' :: cs =>
      match decOfChars cs with
      | some q => .num q
      | none => .nan
    | cs =>
      match decOfChars cs with
      | some q => .num q
      | none => .nan

/-- The two-slot coordinate buffer `new Float32Array(2)`. -/
structure F32x2 where
  c0 : JSNum
  c1 : JSNum
deriving DecidableEq, Repr

/-- A JavaScript value as passed to `parse` / the constructor.  A
`Vector2D` instance argument is identified by its coordinate buffer, which
is all `parse` reads from it. -/
inductive JSVal where
  | undefined
  | num (n : JSNum)
  | str (s : String)
  | arr (l : List JSVal)
  | vec (coords : F32x2)
deriving Repr

/-- Indexed read `buf[i]` of a `Float32Array(2)`: out-of-range reads give
`undefined`, as in JavaScript. -/
def F32x2.get (a : F32x2) : ℕ → JSVal
  | 0 => .num a.c0
  | 1 => .num a.c1
  | _ => .undefined

/-- JS `ToNumber`, as applied by a store into a `Float32Array` slot:
`undefined` is NaN, a number is itself, a string is parsed, an object is
NaN.  An array converts through its string form: `[]` and `[undefined]`
give 0, a singleton gives its element's value, two or more elements give
NaN (the comma in the joined string).  (Conversion of a nested
singleton-array element is conservatively NaN; no modelled computation
uses one.) -/
def toNumber : JSVal → JSNum
  | .undefined => .nan
  | .num n => n
  | .str s => strToNum s
  | .vec _ => .nan
  | .arr [] => .num 0
  | .arr [.undefined] => .num 0
  | .arr [.num n] => n
  | .arr [.str s] => strToNum s
  | .arr _ => .nan

/-- JS strict inequality `v !== 0` for an arbitrary value `v`: false
exactly for the number value `0`; `undefined`, NaN and every non-number
are strictly different from `0`. -/
def JSVal.neqNumZero : JSVal → Bool
  | .num (.num q) => decide (q ≠ 0)
  | _ => true

/-- A thrown JavaScript error. -/
inductive JSErr where
  | typeError (msg : String)
deriving DecidableEq, Repr

/-- The `options` object recognized by the constructor.  `history` is the
`options.history` property; `none` models the property being absent. -/
structure Options where
  history : Option ℚ
deriving DecidableEq, Repr

/-- Truthiness of `this.options.history && this.options.history > 0`. -/
def Options.historyEnabled (o : Options) : Bool :=
  match o.history with
  | some k => decide (k ≠ 0) && decide (0 < k)
  | none => false

/-- The mutable state of a `Vector2D` instance.  `minB` / `maxB` hold the
coordinate buffers of the stored bound vectors `this._min` / `this._max`
(only their coordinates are ever read); `none` means unset.  `history` is
`none` while `this.history` is still `undefined` — the constructor never
initializes it.  `saved` is assigned by `save()` (called by the
constructor) before any read of `this.saved`. -/
structure Vector2D where
  options : Options
  coords : F32x2
  saved : F32x2
  history : Option (List F32x2)
  minB : Option F32x2
  maxB : Option F32x2
deriving DecidableEq, Repr

namespace Vector2D

/-- `static parse(arg1, arg2)` of `Vector2D`: if `arg2 !== undefined`, both
arguments are stored directly (each through `ToNumber`); otherwise a
length-2 array or a `Vector2D` instance is copied element-wise, and every
other case throws a `TypeError`. -/
def parse (arg1 arg2 : JSVal) : Except JSErr F32x2 :=
  match arg2 with
  | .undefined =>
    match arg1 with
    | .undefined => .error (.typeError "Must provide an argument")
    | .arr l =>
      match l with
      | [a, b] => .ok ⟨toNumber a, toNumber b⟩
      | _ => .error (.typeError "Array must be of length 2")
    | .vec c => .ok ⟨c.c0, c.c1⟩
    | _ => .error (.typeError "Argument must be an array or Vector2D object")
  | a2 => .ok ⟨toNumber arg1, toNumber a2⟩

/-- `save()`: `this.saved = this.coords.slice()`; then, if
`options.history` is truthy and positive, `this.history.unshift(this.saved)`
— which throws a `TypeError`, since `this.history` is `undefined` unless it
was assigned elsewhere — and `this.history.pop()` once the length exceeds
`options.history`. -/
def save (v : Vector2D) : Except JSErr Vector2D :=
  let w := { v with saved := v.coords }
  if w.options.historyEnabled then
    match w.history with
    | none => .error (.typeError "Cannot read properties of undefined (reading unshift)")
    | some h =>
      let h' := w.saved :: h
      let h' := if decide ((w.options.history.getD 0) < (h'.length : ℚ)) then h'.dropLast else h'
      .ok { w with history := some h' }
  else
    .ok w

/-- `constructor(arg1, arg2, options = {})`: stores `options`, parses the
arguments into `coords`, then calls `save()`.  The placeholder `saved`
buffer is overwritten by `save()` before any read. -/
def new (arg1 arg2 : JSVal) (options : Options) : Except JSErr Vector2D := do
  let c ← parse arg1 arg2
  save { options := options, coords := c, saved := ⟨.num 0, .num 0⟩,
         history := none, minB := none, maxB := none }

/-- `set(arg1, arg2)`: `this.coords = Vector2D.parse(arg1, arg2)`.  Does
not touch `saved`. -/
def set (v : Vector2D) (arg1 arg2 : JSVal) : Except JSErr Vector2D := do
  let c ← parse arg1 arg2
  pure { v with coords := c }

/-- `add(x, y)`: `this.coords[0] += x; this.coords[1] += y`. -/
def add (v : Vector2D) (x y : JSNum) : Vector2D :=
  { v with coords := ⟨v.coords.c0.add x, v.coords.c1.add y⟩ }

/-- `subtract(x, y)`: `this.coords[0] -= x; this.coords[1] -= y`. -/
def subtract (v : Vector2D) (x y : JSNum) : Vector2D :=
  { v with coords := ⟨v.coords.c0.sub x, v.coords.c1.sub y⟩ }

/-- Getter `get x()`: `this.coords[0]`. -/
def x (v : Vector2D) : JSNum := v.coords.c0

/-- Getter `get y()`: `this.coords[1]`. -/
def y (v : Vector2D) : JSNum := v.coords.c1

/-- Setter `set x(x)`: `this.coords[0] = x`. -/
def setX (v : Vector2D) (n : JSNum) : Vector2D :=
  { v with coords := ⟨n, v.coords.c1⟩ }

/-- Setter `set y(y)`: `this.coords[1] = y`. -/
def setY (v : Vector2D) (n : JSNum) : Vector2D :=
  { v with coords := ⟨v.coords.c0, n⟩ }

/-- Getter `get dirty()`:
`this.coords[0] !== this.saved[0] || this.coords[1] !== this.saved[1]`. -/
def dirty (v : Vector2D) : Bool :=
  v.coords.c0.neq v.saved.c0 || v.coords.c1.neq v.saved.c1

/-- `hasValue()`:
`this.coords[0] !== 0 || this.coords[1] !== 0 || this.coords[2] !== 0`.
The buffer has length 2, so `this.coords[2]` reads `undefined`. -/
def hasValue (v : Vector2D) : Bool :=
  (v.coords.get 0).neqNumZero || (v.coords.get 1).neqNumZero ||
    (v.coords.get 2).neqNumZero

/-- `max(x, y)`: `this._max = new Vector2D(x, y)` — only the coordinate
buffer of the stored bound vector is ever read, so only it is kept. -/
def max (v : Vector2D) (a b : JSVal) : Except JSErr Vector2D := do
  let bv ← new a b { history := none }
  pure { v with maxB := some bv.coords }

/-- `min(x, y)`: `this._min = new Vector2D(x, y)`. -/
def min (v : Vector2D) (a b : JSVal) : Except JSErr Vector2D := do
  let bv ← new a b { history := none }
  pure { v with minB := some bv.coords }

end Vector2D

/-- Modelled from the spec: the scalar helper `lerp`, called by the source
(`VectorD.mjs` lines 77, 135-136) but defined in a module that is not under
`src/`.  Spec §4.2: `lerp(a, b, t) = a + (b − a) × t`.  (Named `lerpScalar`
here; the static method keeps the source name `Vector2D.lerp`.) -/
def lerpScalar (a b t : JSNum) : JSNum :=
  a.add ((b.sub a).mul t)

/-- Modelled from the spec: the scalar helper `clamp`, called by the source
(`VectorD.mjs` lines 229-230) but defined in a module that is not under
`src/`.  Spec §4.4: `clamp(v, lo, hi) = max(lo, min(hi, v))`.  (Named
`clampScalar` here; the method keeps the source name `Vector2D.clamp`.) -/
def clampScalar (v lo hi : JSNum) : JSNum :=
  mathMax lo (mathMin hi v)

namespace Vector2D

/-- `lerpTo(x, y, amt)`: each coordinate is replaced by
`lerp(coord, target, amt)`. -/
def lerpTo (v : Vector2D) (tx ty amt : JSNum) : Vector2D :=
  { v with coords := ⟨lerpScalar v.coords.c0 tx amt, lerpScalar v.coords.c1 ty amt⟩ }

/-- `clamp()`: `this.coords[i] = clamp(this.coords[i], this._min[axis], this._max[axis])`.
When either `this._min` or `this._max` is unset (`undefined`), the property
read `.x` on it throws a `TypeError` before anything is assigned. -/
def clamp (v : Vector2D) : Except JSErr Vector2D :=
  match v.minB, v.maxB with
  | some mn, some mx =>
    .ok { v with coords := ⟨clampScalar v.coords.c0 mn.c0 mx.c0,
                            clampScalar v.coords.c1 mn.c1 mx.c1⟩ }
  | _, _ => .error (.typeError "Cannot read properties of undefined (reading x)")

/-- In `limited()` the source reads `this.min.x` / `this.max.x`.  `min` and
`max` resolve to the class methods (function objects), not to the stored
bounds `this._min` / `this._max`; the property `x` (or `y`) of a function
object is `undefined`. -/
def methodBoundAxis : JSVal := JSVal.undefined

/-- `limited()`:
`new Vector2D(Math.max(this.min.x, Math.min(this.max.x, this.coords[0])), Math.max(this.min.y, Math.min(this.max.y, this.coords[1])))`.
`Math.min`/`Math.max` convert the `undefined` operand (see
`methodBoundAxis`) through `ToNumber` to NaN. -/
def limited (v : Vector2D) : Except JSErr Vector2D :=
  new (.num (mathMax (toNumber methodBoundAxis)
        (mathMin (toNumber methodBoundAxis) v.coords.c0)))
      (.num (mathMax (toNumber methodBoundAxis)
        (mathMin (toNumber methodBoundAxis) v.coords.c1)))
      { history := none }

/-- `opposite()`: `new Vector2D(-this.coords[0], -this.coords[1])`. -/
def opposite (v : Vector2D) : Except JSErr Vector2D :=
  new (.num v.coords.c0.neg) (.num v.coords.c1.neg) { history := none }

end Vector2D

/-! ## Helper lemmas -/

/-- All successful results of `save()` carry `saved` equal to the (unchanged)
coordinate buffer, and leave `options` alone. -/
theorem save_ok_fields (v w : Vector2D) (h : v.save = .ok w) :
    w.saved = v.coords ∧ w.coords = v.coords ∧ w.options = v.options := by
  simp only [Vector2D.save] at h
  split at h
  · split at h
    · simp at h
    · injection h with h
      subst h
      exact ⟨rfl, rfl, rfl⟩
  · injection h with h
    subst h
    exact ⟨rfl, rfl, rfl⟩

/-- A successfully constructed vector has `saved` equal to `coords` and
stores the options object passed to the constructor. -/
theorem new_ok_fields (a1 a2 : JSVal) (opts : Options) (v : Vector2D)
    (h : Vector2D.new a1 a2 opts = .ok v) :
    v.saved = v.coords ∧ v.options = opts := by
  unfold Vector2D.new at h
  cases hp : Vector2D.parse a1 a2 with
  | error e =>
    rw [hp] at h
    simp [Bind.bind, Except.bind] at h
  | ok c =>
    rw [hp] at h
    simp only [Bind.bind, Except.bind] at h
    obtain ⟨hs, hc, ho⟩ := save_ok_fields _ _ h
    exact ⟨hs.trans hc.symm, ho⟩

/-! ## Claim theorems -/

/-- C1: with `options.history = k > 0`, the very first `save()` — called by
the constructor — executes `this.history.unshift(...)` on a `this.history`
that was never initialized, so construction throws a `TypeError` and the
specified bounded-history behaviour is unreachable.  Evaluation of the code
at the failing input `new Vector2D(1, 2, { history: 2 })`. -/
theorem construct_with_history_throws :
    Vector2D.new (.num (.num 1)) (.num (.num 2)) { history := some 2 }
      = .error (.typeError "Cannot read properties of undefined (reading unshift)") := by
  rfl

/-- C8: `hasValue()` also reads `this.coords[2]`, which is `undefined` on
the 2-slot buffer, and `undefined !== 0` is true — so `hasValue()` returns
`true` for every vector, including the all-zero vector for which the claim
requires `false`. -/
theorem hasValue_always_true :
    (∀ v : Vector2D, v.hasValue = true) ∧
    (Vector2D.new (.num (.num 0)) (.num (.num 0)) { history := none }).map
        Vector2D.hasValue = .ok true := by
  constructor
  · intro v
    have h2 : v.coords.get 2 = .undefined := rfl
    simp [Vector2D.hasValue, h2, JSVal.neqNumZero]
  · rfl

/-- C10: whenever a second argument is supplied (`arg2 !== undefined`) the
parser validates nothing and never throws — both arguments are stored
directly through `ToNumber` — so `Vector(undefined, 5)` and
`Vector("a", "b")` construct successfully with NaN in the unconvertible
slots. -/
theorem parse_two_args_no_validation :
    (∀ a1 a2 : JSVal, a2 ≠ JSVal.undefined →
        Vector2D.parse a1 a2 = .ok ⟨toNumber a1, toNumber a2⟩) ∧
    (∃ v : Vector2D,
        Vector2D.new .undefined (.num (.num 5)) { history := none } = .ok v ∧
        v.coords = ⟨.nan, .num 5⟩) ∧
    (∃ v : Vector2D,
        Vector2D.new (.str "a") (.str "b") { history := none } = .ok v ∧
        v.coords = ⟨.nan, .nan⟩) := by
  refine ⟨?_, ?_, ?_⟩
  · intro a1 a2 h
    cases a2 with
    | undefined => exact absurd rfl h
    | num n => rfl
    | str s => rfl
    | arr l => rfl
    | vec c => rfl
  · exact ⟨⟨⟨none⟩, ⟨.nan, .num 5⟩, ⟨.nan, .num 5⟩, none, none, none⟩, rfl, rfl⟩
  · exact ⟨⟨⟨none⟩, ⟨.nan, .nan⟩, ⟨.nan, .nan⟩, none, none, none⟩, rfl, rfl⟩

/-- Witness for `parse_two_args_no_validation`: instantiated at the
concrete arguments `("a", 7)`. -/
theorem parse_two_args_no_validation_witness :
    Vector2D.parse (.str "a") (.num (.num 7)) = .ok ⟨.nan, .num 7⟩ := by
  have h := parse_two_args_no_validation.1 (.str "a") (.num (.num 7)) (by intro hh; cases hh)
  exact h.trans rfl

/-- C2 counterexample: `new Vector2D(undefined, 5)` constructs successfully
with coords `[NaN, 5]`, and `dirty` is `true` immediately after
construction (`NaN !== NaN`), contradicting "dirty is false immediately
after construction". -/
theorem dirty_true_after_nan_construction :
    (Vector2D.new .undefined (.num (.num 5)) { history := none }).map Vector2D.dirty
      = .ok true := by
  rfl

/-- C2 amended: `dirty` compares `coords` to `saved` axis-by-axis with JS
strict inequality, under which NaN differs from itself; hence, for NaN-free
coordinates, `dirty` is true iff some axis differs, it is false right after
construction or after `save()`, and a mutation that changes an axis (here:
`add` with a non-zero delta, or the `x` setter with a different value)
makes it true. -/
theorem dirty_characterization :
    (∀ v : Vector2D, v.coords.c0 ≠ JSNum.nan → v.coords.c1 ≠ JSNum.nan →
        (v.dirty = true ↔ v.coords ≠ v.saved)) ∧
    (∀ (a1 a2 : JSVal) (opts : Options) (v : Vector2D),
        Vector2D.new a1 a2 opts = .ok v →
        v.coords.c0 ≠ JSNum.nan → v.coords.c1 ≠ JSNum.nan → v.dirty = false) ∧
    (∀ v w : Vector2D, v.save = .ok w →
        w.coords.c0 ≠ JSNum.nan → w.coords.c1 ≠ JSNum.nan → w.dirty = false) ∧
    (∀ (v : Vector2D) (x y : ℚ), v.dirty = false → x ≠ 0 ∨ y ≠ 0 →
        (v.add (.num x) (.num y)).dirty = true) ∧
    (∀ (v : Vector2D) (q : ℚ), v.dirty = false → JSNum.num q ≠ v.coords.c0 →
        (v.setX (.num q)).dirty = true) := by
  have hfalse : ∀ v : Vector2D, v.dirty = false →
      ∃ a b : ℚ, v.coords = ⟨.num a, .num b⟩ ∧ v.saved = ⟨.num a, .num b⟩ := by
    intro v hd
    obtain ⟨o, ⟨c0, c1⟩, ⟨s0, s1⟩, hh, mn, mx⟩ := v
    simp only [Vector2D.dirty, Bool.or_eq_false_iff] at hd
    obtain ⟨h0, h1⟩ := hd
    cases c0 <;> cases s0 <;> simp [JSNum.neq] at h0
    cases c1 <;> cases s1 <;> simp [JSNum.neq] at h1
    subst h0; subst h1
    exact ⟨_, _, rfl, rfl⟩
  refine ⟨?_, ?_, ?_, ?_, ?_⟩
  · intro v h0 h1
    obtain ⟨o, ⟨c0, c1⟩, ⟨s0, s1⟩, hh, mn, mx⟩ := v
    simp only at h0 h1
    cases c0 with
    | nan => exact absurd rfl h0
    | num a =>
      cases c1 with
      | nan => exact absurd rfl h1
      | num b =>
        cases s0 <;> cases s1
        all_goals simp [Vector2D.dirty, JSNum.neq, F32x2.mk.injEq]
        all_goals tauto
  · intro a1 a2 opts v h h0 h1
    obtain ⟨hs, -⟩ := new_ok_fields _ _ _ _ h
    unfold Vector2D.dirty
    rw [hs]
    cases hc0 : v.coords.c0 with
    | nan => exact absurd hc0 h0
    | num a =>
      cases hc1 : v.coords.c1 with
      | nan => exact absurd hc1 h1
      | num b => simp [JSNum.neq]
  · intro v w h h0 h1
    obtain ⟨hs, hc, -⟩ := save_ok_fields _ _ h
    unfold Vector2D.dirty
    rw [hs, ← hc]
    cases hc0 : w.coords.c0 with
    | nan => exact absurd hc0 h0
    | num a =>
      cases hc1 : w.coords.c1 with
      | nan => exact absurd hc1 h1
      | num b => simp [JSNum.neq]
  · intro v x y hd hxy
    obtain ⟨a, b, hco, hsa⟩ := hfalse v hd
    simp only [Vector2D.add, Vector2D.dirty, hco, hsa, JSNum.add, JSNum.neq,
      Bool.or_eq_true, decide_eq_true_eq]
    rcases hxy with hx | hy
    · exact Or.inl (fun hc => hx (by linarith))
    · exact Or.inr (fun hc => hy (by linarith))
  · intro v q hd hq
    obtain ⟨a, b, hco, hsa⟩ := hfalse v hd
    rw [hco] at hq
    simp only [Vector2D.setX, Vector2D.dirty, hco, hsa, JSNum.neq,
      Bool.or_eq_true, decide_eq_true_eq]
    cases hq' : q == a with
    | true => simp at hq'; subst hq'; exact absurd rfl hq
    | false => simp at hq'; exact Or.inl hq'

/-- Witness for `dirty_characterization`: a clean vector `[3,4]` becomes
dirty after `add(1, 0)`. -/
theorem dirty_characterization_witness :
    ((⟨⟨none⟩, ⟨.num 3, .num 4⟩, ⟨.num 3, .num 4⟩, none, none, none⟩ : Vector2D).add
        (.num 1) (.num 0)).dirty = true := by
  exact dirty_characterization.2.2.2.1 _ 1 0 (by decide) (Or.inl (by norm_num))

/-- C3: the parser throws exactly when, with no second argument, the lone
argument is an array of length ≠ 2, is neither an array nor a `Vector2D`
instance, or is missing altogether; a lone length-2 array is copied
element-wise (through `ToNumber`) and a lone `Vector2D` has its coordinates
copied element-wise. -/
theorem parse_error_conditions :
    (∀ a1 a2 : JSVal, (∃ e, Vector2D.parse a1 a2 = .error e) ↔
        (a2 = JSVal.undefined ∧
          ((∃ l, a1 = JSVal.arr l ∧ l.length ≠ 2) ∨
            a1 = JSVal.undefined ∨
            ((∀ l, a1 ≠ JSVal.arr l) ∧ (∀ c, a1 ≠ JSVal.vec c) ∧
              a1 ≠ JSVal.undefined)))) ∧
    (∀ a b : JSVal,
        Vector2D.parse (.arr [a, b]) .undefined = .ok ⟨toNumber a, toNumber b⟩) ∧
    (∀ c : F32x2, Vector2D.parse (.vec c) .undefined = .ok ⟨c.c0, c.c1⟩) := by
  refine ⟨?_, fun a b => rfl, fun c => rfl⟩
  intro a1 a2
  cases a2 with
  | undefined =>
    cases a1 with
    | undefined => simp [Vector2D.parse]
    | num n => simp [Vector2D.parse]
    | str s => simp [Vector2D.parse]
    | vec c => simp [Vector2D.parse]
    | arr l =>
      rcases l with _ | ⟨a, _ | ⟨b, _ | ⟨c, t⟩⟩⟩ <;> simp [Vector2D.parse]
  | num n => simp [Vector2D.parse]
  | str s => simp [Vector2D.parse]
  | arr l => simp [Vector2D.parse]
  | vec c => simp [Vector2D.parse]

/-- C4: with both bounds set, `clamp()` rewrites each coordinate in place
to `clamp(v, lo, hi) = max(lo, min(hi, v))` against the stored
`_min`/`_max` buffers.  The scalar `clamp` helper is not under `src/` and
is modelled from the spec (§4.4). -/
theorem clamp_spec :
    (∀ (v : Vector2D) (mn mx : F32x2), v.minB = some mn → v.maxB = some mx →
        v.clamp = .ok { v with
          coords := ⟨clampScalar v.coords.c0 mn.c0 mx.c0,
                     clampScalar v.coords.c1 mn.c1 mx.c1⟩ }) ∧
    (∀ a lo hi : ℚ,
        clampScalar (.num a) (.num lo) (.num hi) = .num (max lo (min hi a))) := by
  constructor
  · intro v mn mx hmn hmx
    unfold Vector2D.clamp
    rw [hmn, hmx]
  · intro a lo hi
    rfl

/-- Witness for `clamp_spec`: the spec's example — coords `[15,-5]`, bounds
`[0,0]` and `[10,10]` — is clamped in place to `[10,0]`. -/
theorem clamp_spec_witness :
    (⟨⟨none⟩, ⟨.num 15, .num (-5)⟩, ⟨.num 15, .num (-5)⟩, none,
        some ⟨.num 0, .num 0⟩, some ⟨.num 10, .num 10⟩⟩ : Vector2D).clamp
      = .ok ⟨⟨none⟩, ⟨.num 10, .num 0⟩, ⟨.num 15, .num (-5)⟩, none,
        some ⟨.num 0, .num 0⟩, some ⟨.num 10, .num 10⟩⟩ := by
  have h := clamp_spec.1
    ⟨⟨none⟩, ⟨.num 15, .num (-5)⟩, ⟨.num 15, .num (-5)⟩, none,
      some ⟨.num 0, .num 0⟩, some ⟨.num 10, .num 10⟩⟩
    ⟨.num 0, .num 0⟩ ⟨.num 10, .num 10⟩ rfl rfl
  rw [h]
  norm_num [clampScalar, mathMax, mathMin, min_def, max_def]

/-- C5: `limited()` does not return the clamped coordinates.  `this.min` /
`this.max` inside `limited()` resolve to the class methods, not the stored
`_min`/`_max`, so their `.x`/`.y` are `undefined` and every coordinate of
the result is NaN.  On the spec's example (coords `[15,-5]`, bounds
`[0,0]`/`[10,10]`) the returned vector is `[NaN, NaN]`, not `[10, 0]`; the
receiver is left unchanged, but the value is wrong. -/
theorem limited_returns_nan_vector :
    (⟨⟨none⟩, ⟨.num 15, .num (-5)⟩, ⟨.num 15, .num (-5)⟩, none,
        some ⟨.num 0, .num 0⟩, some ⟨.num 10, .num 10⟩⟩ : Vector2D).limited
      = .ok ⟨⟨none⟩, ⟨.nan, .nan⟩, ⟨.nan, .nan⟩, none, none, none⟩ := by
  rfl

/-- C6 counterexample: on a vector with no bounds set, `limited()` raises
nothing at all — it returns successfully (a NaN vector) — and `clamp()`
throws a bare `TypeError` from reading `.x` of the undefined `_min`, not a
defined precondition error. -/
theorem no_precondition_error :
    ((⟨⟨none⟩, ⟨.num 1, .num 2⟩, ⟨.num 1, .num 2⟩, none, none, none⟩ : Vector2D).limited
        = .ok ⟨⟨none⟩, ⟨.nan, .nan⟩, ⟨.nan, .nan⟩, none, none, none⟩) ∧
    ((⟨⟨none⟩, ⟨.num 1, .num 2⟩, ⟨.num 1, .num 2⟩, none, none, none⟩ : Vector2D).clamp
        = .error (.typeError "Cannot read properties of undefined (reading x)")) :=
  ⟨rfl, rfl⟩

/-- C6 amended: `clamp()` invoked before both bounds are set throws a
`TypeError` (a property read on `undefined`) — an incidental crash, not a
defined precondition error — while `limited()` never raises at all: with or
without bounds it returns a fresh vector whose coordinates are NaN. -/
theorem clamp_family_without_bounds :
    (∀ v : Vector2D, v.minB = none ∨ v.maxB = none →
        v.clamp = .error (.typeError "Cannot read properties of undefined (reading x)")) ∧
    (∀ v : Vector2D,
        v.limited = .ok ⟨⟨none⟩, ⟨.nan, .nan⟩, ⟨.nan, .nan⟩, none, none, none⟩) := by
  constructor
  · intro v h
    unfold Vector2D.clamp
    rcases h with h | h
    · rw [h]
    · cases hm : v.minB with
      | none => rfl
      | some mn => rw [h]
  · intro v
    rfl

/-- Witness for `clamp_family_without_bounds`: a concrete fresh vector with
no bounds. -/
theorem clamp_family_without_bounds_witness :
    (⟨⟨none⟩, ⟨.num 1, .num 2⟩, ⟨.num 1, .num 2⟩, none, none,
        some ⟨.num 9, .num 9⟩⟩ : Vector2D).clamp
      = .error (.typeError "Cannot read properties of undefined (reading x)") := by
  exact clamp_family_without_bounds.1 _ (Or.inl rfl)

/-- Witness for `parse_error_conditions`: instantiated at the lone
empty-array argument, which must raise. -/
theorem parse_error_conditions_witness :
    ∃ e, Vector2D.parse (.arr []) .undefined = .error e := by
  exact (parse_error_conditions.1 (.arr []) .undefined).mpr
    ⟨rfl, Or.inl ⟨[], rfl, by decide⟩⟩

